import Mathlib

/-!
# Socket status-flag control: `psock_vfcntl` (net/socket/net_vfcntl.c)

A shallow embedding of `psock_vfcntl` and theorems about it.

* C `int` values (`cmd`, `mode`, `ret`) are `Int`; the bitwise operators on them are the
  two's-complement operations `Int.land`, `Int.lor` and `~~~`.
* `uint8_t` values (`s_flags`, `sockcaps_t`) are `Nat`; a store into a `uint8_t` object
  reduces modulo `2 ^ 8`.
* The header constants (`F_*`, `O_*`, `E*`, `SOCKCAP_NONBLOCKING`, `_SF_NONBLOCK`) are not
  defined in net_vfcntl.c. They are the fields of `Consts`, and every theorem is stated for
  an arbitrary `K : Consts`, with the facts it needs about the constants as hypotheses.
* The socket, the connection and the network lock are passed explicitly: the function takes
  the lock state and the socket and returns the new ones next to the C return value.
-/

namespace NetVfcntl

/-! ## Constants of the included headers -/

/-- The preprocessor constants used by `psock_vfcntl`. The command codes are `int`s; the flag
masks and errno numbers are non-negative `int`s and are kept as `Nat`. -/
structure Consts where
  F_GETFL : Int
  F_SETFL : Int
  F_GETOWN : Int
  F_SETOWN : Int
  F_GETLK : Int
  F_SETLK : Int
  F_SETLKW : Int
  O_RDWR : Nat
  O_SYNC : Nat
  O_RSYNC : Nat
  O_NONBLOCK : Nat
  SOCKCAP_NONBLOCKING : Nat
  _SF_NONBLOCK : Nat
  EINVAL : Nat
  EBADF : Nat
  ENOSYS : Nat
  deriving DecidableEq, Repr

/-- The values these constants have in the NuttX headers (include/fcntl.h, include/errno.h,
include/nuttx/net/net.h). The headers are not among the verified sources; this instance is
only used to run the model on concrete inputs. -/
def nuttx : Consts :=
  { F_GETFL := 2, F_SETFL := 9, F_GETOWN := 5, F_SETOWN := 13,
    F_GETLK := 4, F_SETLK := 11, F_SETLKW := 12,
    O_RDWR := 3, O_SYNC := 128, O_RSYNC := 0, O_NONBLOCK := 64,
    SOCKCAP_NONBLOCKING := 1, _SF_NONBLOCK := 8,
    EINVAL := 22, EBADF := 9, ENOSYS := 38 }

/-- The labels of the `switch (cmd)` statement are pairwise distinct (a C compiler rejects a
`switch` with a repeated `case` value). -/
def Consts.case_labels_distinct (K : Consts) : Prop :=
  [K.F_GETFL, K.F_SETFL, K.F_GETOWN, K.F_SETOWN, K.F_GETLK, K.F_SETLK, K.F_SETLKW].Nodup

instance (K : Consts) : Decidable K.case_labels_distinct := by
  unfold Consts.case_labels_distinct
  infer_instance

/-- `OK`: the success value; the header comment of `psock_vfcntl` reads "Zero (OK) is returned
on success". -/
def OK : Int := 0

/-! ## Data model -/

/-- `sockcaps_t`, an unsigned 8-bit set of `SOCKCAP_*` bits. -/
abbrev sockcaps_t := Nat

/-- `struct socket_conn_s`: the connection. Only `s_flags` (a `uint8_t` holding the `_SF_*`
bits) is accessed by `psock_vfcntl`. -/
structure socket_conn_s where
  s_flags : Nat
  deriving DecidableEq, Repr

/-- `struct sock_intf_s`: the socket interface. Only the capability query `si_sockcaps` is
called by `psock_vfcntl`. In C the callback receives the socket; here it receives the
socket's data, which in this model is its connection. -/
structure sock_intf_s where
  si_sockcaps : Option socket_conn_s → sockcaps_t

/-- `struct socket`: `s_conn` may be `NULL` (`none`). `s_sockif` and its `si_sockcaps` are
never `NULL`, which is what the two `DEBUGASSERT`s of `psock_vfcntl` require. -/
structure socket where
  s_conn : Option socket_conn_s
  s_sockif : sock_intf_s

/-- The operations `psock_vfcntl` performs on its environment, in the order performed. -/
inductive net_event where
  | lock
  | unlock
  | sockcaps
  deriving DecidableEq, Repr

/-- The state of the network lock: its nesting count, and the record of the environment
operations performed so far. -/
structure net_state where
  count : Int
  trace : List net_event
  deriving DecidableEq, Repr

/-- Modelled from the spec: `net_lock` (net/utils, not in net_vfcntl.c) acquires the Lock
Domain. The lock is counted: one more level of nesting is held afterwards. -/
def net_lock (net : net_state) : net_state :=
  { count := net.count + 1, trace := net.trace ++ [net_event.lock] }

/-- Modelled from the spec: `net_unlock` (net/utils, not in net_vfcntl.c) releases the Lock
Domain: one level of nesting less is held afterwards. -/
def net_unlock (net : net_state) : net_state :=
  { count := net.count - 1, trace := net.trace ++ [net_event.unlock] }

/-- The call `psock->s_sockif->si_sockcaps(psock)`: returns the capability set and records
that the query ran. The query itself has no effect on the socket. -/
def call_si_sockcaps (psock : socket) (net : net_state) : sockcaps_t × net_state :=
  (psock.s_sockif.si_sockcaps psock.s_conn,
   { net with trace := net.trace ++ [net_event.sockcaps] })

/-- Modelled from the spec: `_SS_ISNONBLOCK(s)` (socket/socket.h, not in net_vfcntl.c) tests
whether "the Connection State's non-blocking bit is currently set", i.e.
`((s) & _SF_NONBLOCK) != 0`. -/
def _SS_ISNONBLOCK (K : Consts) (s : Nat) : Bool :=
  decide (s &&& K._SF_NONBLOCK ≠ 0)

/-- Conversion of an `int` to `uint8_t`, as on assignment to `conn->s_flags`. -/
def to_uint8 (x : Int) : Nat :=
  (x % 256).toNat

/-- What `psock_vfcntl` leaves behind: the C return value, the socket behind `psock` (`none`
for a `NULL` pointer) and the state of the network lock. -/
structure vfcntl_result where
  ret : Int
  psock : Option socket
  net : net_state

/-- The `switch (cmd)` of `psock_vfcntl`, executed on the connection `conn` of `psock` with
the lock held. Returns `ret`, the connection and the lock state at the end of the switch.
`ret` enters as `-EINVAL`; `ap` is the `int` that `va_arg(ap, int)` yields. -/
def vfcntl_switch (K : Consts) (psock : socket) (conn : socket_conn_s) (net : net_state)
    (cmd : Int) (ap : Int) (ret : Int) : Int × socket_conn_s × net_state :=
  if cmd = K.F_GETFL then
    -- ret = O_RDWR | O_SYNC | O_RSYNC;
    let ret : Int := Int.lor (Int.lor (K.O_RDWR : Int) (K.O_SYNC : Int)) (K.O_RSYNC : Int)
    -- sockcaps = psock->s_sockif->si_sockcaps(psock);
    let (sockcaps, net) := call_si_sockcaps psock net
    if sockcaps &&& K.SOCKCAP_NONBLOCKING ≠ 0 ∧ _SS_ISNONBLOCK K conn.s_flags = true then
      -- ret |= O_NONBLOCK;
      (Int.lor ret (K.O_NONBLOCK : Int), conn, net)
    else
      (ret, conn, net)
  else if cmd = K.F_SETFL then
    -- int mode = va_arg(ap, int);
    let mode : Int := ap
    let (sockcaps, net) := call_si_sockcaps psock net
    if sockcaps &&& K.SOCKCAP_NONBLOCKING ≠ 0 then
      if Int.land mode (K.O_NONBLOCK : Int) ≠ 0 then
        -- conn->s_flags |= _SF_NONBLOCK;
        (OK, { conn with
                 s_flags := to_uint8 (Int.lor (conn.s_flags : Int) (K._SF_NONBLOCK : Int)) },
         net)
      else
        -- conn->s_flags &= ~_SF_NONBLOCK;
        (OK, { conn with
                 s_flags := to_uint8 (Int.land (conn.s_flags : Int) (~~~(K._SF_NONBLOCK : Int))) },
         net)
    else
      (-(K.ENOSYS : Int), conn, net)
  else if cmd = K.F_GETOWN ∨ cmd = K.F_SETOWN ∨ cmd = K.F_GETLK ∨ cmd = K.F_SETLK
      ∨ cmd = K.F_SETLKW then
    (-(K.ENOSYS : Int), conn, net)
  else
    -- default: break;
    (ret, conn, net)

/-- `int psock_vfcntl(FAR struct socket *psock, int cmd, va_list ap)`. -/
def psock_vfcntl (K : Consts) (net : net_state) (psock : Option socket) (cmd : Int)
    (ap : Int) : vfcntl_result :=
  -- int ret = -EINVAL;
  let ret : Int := -(K.EINVAL : Int)
  match psock with
  | none => { ret := -(K.EBADF : Int), psock := none, net := net }
  | some s =>
    match s.s_conn with
    | none => { ret := -(K.EBADF : Int), psock := some s, net := net }
    | some conn =>
      let net := net_lock net
      let (ret, conn, net) := vfcntl_switch K s conn net cmd ap ret
      let net := net_unlock net
      { ret := ret, psock := some { s with s_conn := some conn }, net := net }

/-- `int psock_fcntl(FAR struct socket *psock, int cmd, ...)`: hands its variable arguments
to `psock_vfcntl` and returns what it returns. -/
def psock_fcntl (K : Consts) (net : net_state) (psock : Option socket) (cmd : Int)
    (ap : Int) : vfcntl_result :=
  psock_vfcntl K net psock cmd ap

/-- The operand of the `NULL` test that opens `psock_vfcntl`:
`psock == NULL || psock->s_conn == NULL`. -/
def bad_handle (psock : Option socket) : Prop :=
  psock = none ∨ ∃ s, psock = some s ∧ s.s_conn = none

/-- The connection behind the handle after a call, if there is one. -/
def vfcntl_result.conn (r : vfcntl_result) : Option socket_conn_s :=
  r.psock.bind (fun s => s.s_conn)

/-- The value `s_flags` holds after the two-way branch of the F_SETFL case, from its value
`f` before: `f |= _SF_NONBLOCK` if `(mode & O_NONBLOCK) != 0`, else `f &= ~_SF_NONBLOCK`,
stored as `uint8_t`. -/
def setfl_flags (K : Consts) (f : Nat) (mode : Int) : Nat :=
  if Int.land mode (K.O_NONBLOCK : Int) ≠ 0 then
    to_uint8 (Int.lor (f : Int) (K._SF_NONBLOCK : Int))
  else
    to_uint8 (Int.land (f : Int) (~~~(K._SF_NONBLOCK : Int)))

/-- The value F_GETFL composes from a capability set and an `s_flags` value. -/
def getfl_flags (K : Consts) (caps : sockcaps_t) (f : Nat) : Int :=
  if caps &&& K.SOCKCAP_NONBLOCKING ≠ 0 ∧ f &&& K._SF_NONBLOCK ≠ 0 then
    Int.lor (Int.lor (Int.lor (K.O_RDWR : Int) (K.O_SYNC : Int)) (K.O_RSYNC : Int))
      (K.O_NONBLOCK : Int)
  else
    Int.lor (Int.lor (K.O_RDWR : Int) (K.O_SYNC : Int)) (K.O_RSYNC : Int)

/-- The next call on the same handle: it starts from the socket and the lock state that the
previous call `r` left behind. -/
def then_vfcntl (K : Consts) (r : vfcntl_result) (cmd : Int) (ap : Int) : vfcntl_result :=
  psock_vfcntl K r.net r.psock cmd ap

/-- The handle passes the `NULL` test that opens `psock_vfcntl`: neither `psock` nor
`psock->s_conn` is `NULL`. -/
def has_conn (psock : Option socket) : Bool :=
  match psock with
  | none => false
  | some s => s.s_conn.isSome

/-! ## Concrete inputs -/

/-- A socket interface whose capability query answers `caps` whatever the socket's state. -/
def sockif_const (caps : sockcaps_t) : sock_intf_s :=
  { si_sockcaps := fun _ => caps }

/-- The network lock when nobody holds it and nothing has been recorded. -/
def net_idle : net_state :=
  { count := 0, trace := [] }

/-- A socket that has no connection (`s_conn == NULL`). -/
def sock_unconnected : socket :=
  { s_conn := none, s_sockif := sockif_const 1 }

/-- A blocking socket (`s_flags == 0`) whose interface reports `SOCKCAP_NONBLOCKING`
(with the NuttX value 1). -/
def sock_capable : socket :=
  { s_conn := some { s_flags := 0 }, s_sockif := sockif_const 1 }

/-- A socket whose interface reports no capability; its `_SF_NONBLOCK` bit (NuttX value 8)
is nevertheless set in `s_flags`. -/
def sock_incapable : socket :=
  { s_conn := some { s_flags := 8 }, s_sockif := sockif_const 0 }

/-! ## Arithmetic of the two compound assignments to `s_flags` -/

theorem to_uint8_natCast (n : Nat) : to_uint8 (n : Int) = n % 256 := by
  unfold to_uint8
  have h : ((n : Int) % 256) = ((n % 256 : Nat) : Int) := by norm_cast
  rw [h, Int.toNat_ofNat]

theorem lor_natCast (a b : Nat) : Int.lor (a : Int) (b : Int) = ((a ||| b : Nat) : Int) :=
  rfl

theorem land_natCast (a b : Nat) : Int.land (a : Int) (b : Int) = ((a &&& b : Nat) : Int) :=
  rfl

theorem land_not_natCast (a b : Nat) :
    Int.land (a : Int) (~~~(b : Int)) = ((Nat.ldiff a b : Nat) : Int) :=
  rfl

/-- `s_flags |= m` stored into a `uint8_t`. -/
theorem set_bits_eq (s m : Nat) :
    to_uint8 (Int.lor (s : Int) (m : Int)) = (s ||| m) % 256 := by
  rw [lor_natCast, to_uint8_natCast]

/-- `s_flags &= ~m` stored into a `uint8_t`. -/
theorem clear_bits_eq (s m : Nat) :
    to_uint8 (Int.land (s : Int) (~~~(m : Int))) = (Nat.ldiff s m) % 256 := by
  rw [land_not_natCast, to_uint8_natCast]

theorem testBit_mod_256 (x i : Nat) :
    (x % 256).testBit i = (decide (i < 8) && x.testBit i) := by
  have h : (256 : Nat) = 2 ^ 8 := by norm_num
  rw [h, Nat.testBit_mod_two_pow]

/-- After `s_flags |= m` the bits of a non-empty 8-bit mask `m` test as set. -/
theorem set_bits_test (s m : Nat) (h0 : m ≠ 0) (h8 : m < 256) :
    ((s ||| m) % 256) &&& m ≠ 0 := by
  obtain ⟨i, hi⟩ := Nat.ne_zero_implies_bit_true h0
  have hlt : i < 8 := by
    by_contra hge
    have h1 : 2 ^ 8 ≤ 2 ^ i := Nat.pow_le_pow_right (by norm_num) (by omega)
    have h2 : m ≥ 2 ^ i := Nat.testBit_implies_ge hi
    omega
  intro hz
  have hb : (((s ||| m) % 256) &&& m).testBit i = true := by
    rw [Nat.testBit_and, testBit_mod_256, Nat.testBit_or, hi]
    simp [hlt]
  rw [hz] at hb
  simp at hb

/-- After `s_flags &= ~m` no bit of the mask `m` tests as set. -/
theorem clear_bits_test (s m : Nat) : ((Nat.ldiff s m) % 256) &&& m = 0 := by
  apply Nat.eq_of_testBit_eq
  intro i
  rw [Nat.testBit_and, testBit_mod_256, Nat.testBit_ldiff]
  cases s.testBit i <;> cases m.testBit i <;> simp

/-! ## The paths through `psock_vfcntl` -/

theorem socket_with_conn (s : socket) (conn : socket_conn_s) (h : s.s_conn = some conn) :
    ({ s with s_conn := some conn } : socket) = s := by
  cases s
  simp_all

/-- With a non-`NULL` connection the function is: lock, switch, unlock. -/
theorem psock_vfcntl_valid (K : Consts) (net : net_state) (s : socket) (conn : socket_conn_s)
    (cmd ap : Int) (h : s.s_conn = some conn) :
    psock_vfcntl K net (some s) cmd ap =
      { ret := (vfcntl_switch K s conn (net_lock net) cmd ap (-(K.EINVAL : Int))).1,
        psock := some { s with
          s_conn := some (vfcntl_switch K s conn (net_lock net) cmd ap (-(K.EINVAL : Int))).2.1 },
        net := net_unlock (vfcntl_switch K s conn (net_lock net) cmd ap (-(K.EINVAL : Int))).2.2 } := by
  simp only [psock_vfcntl, h]

theorem switch_getfl (K : Consts) (s : socket) (conn : socket_conn_s) (net : net_state)
    (ap ret : Int) :
    vfcntl_switch K s conn net K.F_GETFL ap ret =
      (if s.s_sockif.si_sockcaps s.s_conn &&& K.SOCKCAP_NONBLOCKING ≠ 0
            ∧ conn.s_flags &&& K._SF_NONBLOCK ≠ 0 then
          ((K.O_RDWR ||| K.O_SYNC ||| K.O_RSYNC ||| K.O_NONBLOCK : Nat) : Int)
        else ((K.O_RDWR ||| K.O_SYNC ||| K.O_RSYNC : Nat) : Int),
       conn, { net with trace := net.trace ++ [net_event.sockcaps] }) := by
  simp only [vfcntl_switch, call_si_sockcaps, _SS_ISNONBLOCK, lor_natCast, if_true,
    decide_eq_true_eq]
  split <;> rfl

theorem switch_setfl (K : Consts) (s : socket) (conn : socket_conn_s) (net : net_state)
    (mode ret : Int) (hlab : K.case_labels_distinct) :
    vfcntl_switch K s conn net K.F_SETFL mode ret =
      (if s.s_sockif.si_sockcaps s.s_conn &&& K.SOCKCAP_NONBLOCKING ≠ 0 then
        (if Int.land mode (K.O_NONBLOCK : Int) ≠ 0 then
          (0, { s_flags := (conn.s_flags ||| K._SF_NONBLOCK) % 256 },
            { net with trace := net.trace ++ [net_event.sockcaps] })
        else
          (0, { s_flags := (Nat.ldiff conn.s_flags K._SF_NONBLOCK) % 256 },
            { net with trace := net.trace ++ [net_event.sockcaps] }))
      else
        (-(K.ENOSYS : Int), conn, { net with trace := net.trace ++ [net_event.sockcaps] })) := by
  have hne : K.F_SETFL ≠ K.F_GETFL := by
    intro h
    simp [Consts.case_labels_distinct, h] at hlab
  simp only [vfcntl_switch, call_si_sockcaps, if_neg hne, if_true, set_bits_eq, clear_bits_eq, OK]

theorem switch_unimplemented (K : Consts) (s : socket) (conn : socket_conn_s)
    (net : net_state) (cmd ap ret : Int) (hlab : K.case_labels_distinct)
    (hcmd : cmd = K.F_GETOWN ∨ cmd = K.F_SETOWN ∨ cmd = K.F_GETLK ∨ cmd = K.F_SETLK
      ∨ cmd = K.F_SETLKW) :
    vfcntl_switch K s conn net cmd ap ret = (-(K.ENOSYS : Int), conn, net) := by
  simp only [Consts.case_labels_distinct, List.nodup_cons, List.mem_cons, List.mem_singleton,
    not_or] at hlab
  have h1 : cmd ≠ K.F_GETFL := by
    rcases hcmd with h | h | h | h | h <;> rw [h] <;> intro e <;> simp [e] at hlab
  have h2 : cmd ≠ K.F_SETFL := by
    rcases hcmd with h | h | h | h | h <;> rw [h] <;> intro e <;> simp [e] at hlab
  simp only [vfcntl_switch, if_neg h1, if_neg h2, if_pos hcmd]

theorem switch_default (K : Consts) (s : socket) (conn : socket_conn_s)
    (net : net_state) (cmd ap ret : Int)
    (hcmd : cmd ∉ [K.F_GETFL, K.F_SETFL, K.F_GETOWN, K.F_SETOWN, K.F_GETLK, K.F_SETLK,
      K.F_SETLKW]) :
    vfcntl_switch K s conn net cmd ap ret = (ret, conn, net) := by
  simp only [List.mem_cons, List.mem_singleton, not_or, List.not_mem_nil, not_false_eq_true,
    and_true] at hcmd
  obtain ⟨h1, h2, h3, h4, h5, h6, h7⟩ := hcmd
  have h : ¬ (cmd = K.F_GETOWN ∨ cmd = K.F_SETOWN ∨ cmd = K.F_GETLK ∨ cmd = K.F_SETLK
      ∨ cmd = K.F_SETLKW) := by
    rintro (h | h | h | h | h) <;> contradiction
  simp only [vfcntl_switch, if_neg h1, if_neg h2, if_neg h]

/-- F_GETFL on a handle with a connection: the whole result. -/
theorem getfl_valid (K : Consts) (net : net_state) (s : socket) (conn : socket_conn_s)
    (ap : Int) (h : s.s_conn = some conn) :
    psock_vfcntl K net (some s) K.F_GETFL ap =
      { ret := getfl_flags K (s.s_sockif.si_sockcaps s.s_conn) conn.s_flags,
        psock := some s,
        net := net_unlock
          { net_lock net with trace := (net_lock net).trace ++ [net_event.sockcaps] } } := by
  rw [psock_vfcntl_valid K net s conn _ _ h]
  simp only [vfcntl_switch, call_si_sockcaps, _SS_ISNONBLOCK, getfl_flags, if_true,
    decide_eq_true_eq]
  split <;> simp only [socket_with_conn s conn h]

/-- F_SETFL on a handle with a connection and the capability: the whole result. -/
theorem setfl_valid_capable (K : Consts) (net : net_state) (s : socket) (conn : socket_conn_s)
    (mode : Int) (h : s.s_conn = some conn) (hlab : K.case_labels_distinct)
    (hcap : s.s_sockif.si_sockcaps s.s_conn &&& K.SOCKCAP_NONBLOCKING ≠ 0) :
    psock_vfcntl K net (some s) K.F_SETFL mode =
      { ret := 0,
        psock := some { s with s_conn := some { s_flags := setfl_flags K conn.s_flags mode } },
        net := net_unlock
          { net_lock net with trace := (net_lock net).trace ++ [net_event.sockcaps] } } := by
  have hne : K.F_SETFL ≠ K.F_GETFL := by
    intro e
    simp [Consts.case_labels_distinct, e] at hlab
  rw [psock_vfcntl_valid K net s conn _ _ h]
  simp only [vfcntl_switch, call_si_sockcaps, if_neg hne, if_true, if_pos hcap, setfl_flags, OK]
  split <;> rfl

/-- F_SETFL on a handle with a connection but without the capability: the whole result. -/
theorem setfl_valid_incapable (K : Consts) (net : net_state) (s : socket)
    (conn : socket_conn_s) (mode : Int) (h : s.s_conn = some conn)
    (hlab : K.case_labels_distinct)
    (hcap : s.s_sockif.si_sockcaps s.s_conn &&& K.SOCKCAP_NONBLOCKING = 0) :
    psock_vfcntl K net (some s) K.F_SETFL mode =
      { ret := -(K.ENOSYS : Int),
        psock := some s,
        net := net_unlock
          { net_lock net with trace := (net_lock net).trace ++ [net_event.sockcaps] } } := by
  have hnot : ¬ (s.s_sockif.si_sockcaps s.s_conn &&& K.SOCKCAP_NONBLOCKING ≠ 0) :=
    fun hne => hne hcap
  rw [psock_vfcntl_valid K net s conn _ _ h, switch_setfl K s conn _ mode _ hlab, if_neg hnot]
  simp only [socket_with_conn s conn h]

theorem setfl_flags_eq (K : Consts) (f : Nat) (mode : Int) :
    setfl_flags K f mode =
      if Int.land mode (K.O_NONBLOCK : Int) ≠ 0 then (f ||| K._SF_NONBLOCK) % 256
      else (Nat.ldiff f K._SF_NONBLOCK) % 256 := by
  simp only [setfl_flags, set_bits_eq, clear_bits_eq]

/-- The flag test after F_SETFL follows the mode. -/
theorem setfl_flags_test (K : Consts) (f : Nat) (mode : Int)
    (hsf0 : K._SF_NONBLOCK ≠ 0) (hsf8 : K._SF_NONBLOCK < 256) :
    setfl_flags K f mode &&& K._SF_NONBLOCK ≠ 0 ↔ Int.land mode (K.O_NONBLOCK : Int) ≠ 0 := by
  rw [setfl_flags_eq]
  by_cases hm : Int.land mode (K.O_NONBLOCK : Int) ≠ 0
  · rw [if_pos hm]
    exact ⟨fun _ => hm, fun _ => set_bits_test _ _ hsf0 hsf8⟩
  · rw [if_neg hm]
    exact ⟨fun hset => absurd (clear_bits_test _ _) hset, fun hmode => absurd hmode hm⟩

/-- Applying the F_SETFL update twice with one mode is applying it once. -/
theorem setfl_flags_idem (K : Consts) (f : Nat) (mode : Int) :
    setfl_flags K (setfl_flags K f mode) mode = setfl_flags K f mode := by
  simp only [setfl_flags_eq]
  by_cases hm : Int.land mode (K.O_NONBLOCK : Int) ≠ 0
  · simp only [if_pos hm]
    apply Nat.eq_of_testBit_eq
    intro i
    simp only [testBit_mod_256, Nat.testBit_or]
    cases decide (i < 8) <;> cases f.testBit i <;> cases K._SF_NONBLOCK.testBit i <;> rfl
  · simp only [if_neg hm]
    apply Nat.eq_of_testBit_eq
    intro i
    simp only [testBit_mod_256, Nat.testBit_ldiff]
    cases decide (i < 8) <;> cases f.testBit i <;> cases K._SF_NONBLOCK.testBit i <;> rfl

/-- The F_GETFL value as a natural number. -/
theorem getfl_flags_eq (K : Consts) (caps : sockcaps_t) (f : Nat) :
    getfl_flags K caps f =
      if caps &&& K.SOCKCAP_NONBLOCKING ≠ 0 ∧ f &&& K._SF_NONBLOCK ≠ 0 then
        ((K.O_RDWR ||| K.O_SYNC ||| K.O_RSYNC ||| K.O_NONBLOCK : Nat) : Int)
      else ((K.O_RDWR ||| K.O_SYNC ||| K.O_RSYNC : Nat) : Int) := by
  simp only [getfl_flags, lor_natCast]

theorem or_and_right_self (b n : Nat) : (b ||| n) &&& n = n := by
  apply Nat.eq_of_testBit_eq
  intro i
  simp only [Nat.testBit_and, Nat.testBit_or]
  cases b.testBit i <;> cases n.testBit i <;> rfl

theorem or_and_left_self (b n : Nat) : (b ||| n) &&& b = b := by
  apply Nat.eq_of_testBit_eq
  intro i
  simp only [Nat.testBit_and, Nat.testBit_or]
  cases b.testBit i <;> cases n.testBit i <;> rfl

theorem land_natCast_zero (m : Int) : Int.land m ((0 : Nat) : Int) = 0 := by
  cases m with
  | ofNat n =>
    show ((n &&& 0 : Nat) : Int) = 0
    simp
  | negSucc n =>
    show ((Nat.ldiff 0 n : Nat) : Int) = 0
    have hz : Nat.ldiff 0 n = 0 := by
      apply Nat.eq_of_testBit_eq
      intro i
      simp [Nat.testBit_ldiff]
    rw [hz]
    rfl

/-! ## Claims -/

/-- C1: for a handle that is NULL or has a NULL connection, every command with every argument
returns -EBADF, and neither the socket nor the lock state changes. -/
theorem bad_handle_returns_EBADF (K : Consts) (net : net_state) (psock : Option socket)
    (cmd ap : Int) (h : bad_handle psock) :
    (psock_vfcntl K net psock cmd ap).ret = -(K.EBADF : Int)
      ∧ (psock_vfcntl K net psock cmd ap).psock = psock
      ∧ (psock_vfcntl K net psock cmd ap).net = net := by
  rcases h with h | ⟨s, hs, hc⟩
  · subst h
    exact ⟨rfl, rfl, rfl⟩
  · subst hs
    simp only [psock_vfcntl, hc, and_self]

/-- C1 at concrete inputs: on a socket without connection, the unknown command 0, the
unimplemented F_GETOWN and F_GETFL all return -EBADF (-9), not -EINVAL or -ENOSYS. -/
theorem bad_handle_returns_EBADF_witness :
    ((psock_vfcntl nuttx net_idle (some sock_unconnected) 0 0).ret = -9
      ∧ (psock_vfcntl nuttx net_idle (some sock_unconnected) 0 0).psock = some sock_unconnected
      ∧ (psock_vfcntl nuttx net_idle (some sock_unconnected) 0 0).net = net_idle)
    ∧ (psock_vfcntl nuttx net_idle (some sock_unconnected) nuttx.F_GETOWN 0).ret = -9
    ∧ (psock_vfcntl nuttx net_idle none nuttx.F_GETFL 0).ret = -9 :=
  ⟨bad_handle_returns_EBADF nuttx net_idle (some sock_unconnected) 0 0
      (Or.inr ⟨sock_unconnected, rfl, rfl⟩),
    (bad_handle_returns_EBADF nuttx net_idle (some sock_unconnected) nuttx.F_GETOWN 0
      (Or.inr ⟨sock_unconnected, rfl, rfl⟩)).1,
    (bad_handle_returns_EBADF nuttx net_idle none nuttx.F_GETFL 0 (Or.inl rfl)).1⟩

/-- C2: on a handle with a connection, F_GETFL returns exactly O_RDWR | O_SYNC | O_RSYNC,
with O_NONBLOCK or-ed in if and only if the capability set has SOCKCAP_NONBLOCKING and
s_flags has _SF_NONBLOCK; two sockets that agree on these two masked values get the same
result, whatever their other capability and flag bits. -/
theorem getfl_returns_status_flags (K : Consts) (net : net_state) (s : socket)
    (conn : socket_conn_s) (ap : Int) (h : s.s_conn = some conn) :
    (psock_vfcntl K net (some s) K.F_GETFL ap).ret =
        (if s.s_sockif.si_sockcaps s.s_conn &&& K.SOCKCAP_NONBLOCKING ≠ 0
              ∧ conn.s_flags &&& K._SF_NONBLOCK ≠ 0 then
            ((K.O_RDWR ||| K.O_SYNC ||| K.O_RSYNC ||| K.O_NONBLOCK : Nat) : Int)
          else ((K.O_RDWR ||| K.O_SYNC ||| K.O_RSYNC : Nat) : Int))
      ∧ ∀ (net2 : net_state) (s2 : socket) (conn2 : socket_conn_s) (ap2 : Int),
          s2.s_conn = some conn2 →
          s2.s_sockif.si_sockcaps s2.s_conn &&& K.SOCKCAP_NONBLOCKING
            = s.s_sockif.si_sockcaps s.s_conn &&& K.SOCKCAP_NONBLOCKING →
          conn2.s_flags &&& K._SF_NONBLOCK = conn.s_flags &&& K._SF_NONBLOCK →
          (psock_vfcntl K net2 (some s2) K.F_GETFL ap2).ret
            = (psock_vfcntl K net (some s) K.F_GETFL ap).ret := by
  refine ⟨?_, ?_⟩
  · rw [psock_vfcntl_valid K net s conn _ _ h, switch_getfl]
  · intro net2 s2 conn2 ap2 h2 hcaps hflags
    rw [psock_vfcntl_valid K net s conn _ _ h, psock_vfcntl_valid K net2 s2 conn2 _ _ h2,
      switch_getfl, switch_getfl]
    simp only [hcaps, hflags]

/-- C2 at concrete inputs (NuttX values): a blocking capable socket reads 131 = 3 | 128 | 0. -/
theorem getfl_returns_status_flags_witness :
    (psock_vfcntl nuttx net_idle (some sock_capable) nuttx.F_GETFL 0).ret = 131 :=
  (getfl_returns_status_flags nuttx net_idle sock_capable { s_flags := 0 } 0 rfl).1

/-- C3: on a handle with a connection whose capability set has SOCKCAP_NONBLOCKING, F_SETFL
with any int mode returns 0, and afterwards the _SF_NONBLOCK bit of s_flags is set if and
only if (mode & O_NONBLOCK) != 0. (_SF_NONBLOCK is a non-empty mask inside the 8-bit
s_flags.) -/
theorem setfl_sets_nonblock_bit (K : Consts) (net : net_state) (s : socket)
    (conn : socket_conn_s) (mode : Int) (h : s.s_conn = some conn)
    (hlab : K.case_labels_distinct)
    (hsf0 : K._SF_NONBLOCK ≠ 0) (hsf8 : K._SF_NONBLOCK < 256)
    (hcap : s.s_sockif.si_sockcaps s.s_conn &&& K.SOCKCAP_NONBLOCKING ≠ 0) :
    (psock_vfcntl K net (some s) K.F_SETFL mode).ret = 0
      ∧ ∃ conn2, (psock_vfcntl K net (some s) K.F_SETFL mode).conn = some conn2
          ∧ (conn2.s_flags &&& K._SF_NONBLOCK ≠ 0 ↔ Int.land mode (K.O_NONBLOCK : Int) ≠ 0) := by
  rw [psock_vfcntl_valid K net s conn _ _ h, switch_setfl K s conn _ mode _ hlab, if_pos hcap]
  by_cases hm : Int.land mode (K.O_NONBLOCK : Int) ≠ 0
  · rw [if_pos hm]
    refine ⟨rfl, _, rfl, ?_⟩
    exact ⟨fun _ => hm, fun _ => set_bits_test _ _ hsf0 hsf8⟩
  · rw [if_neg hm]
    refine ⟨rfl, _, rfl, ?_⟩
    exact ⟨fun hset => absurd (clear_bits_test _ _) hset, fun hmode => absurd hmode hm⟩

/-- C3 at concrete inputs (NuttX values): F_SETFL with mode O_NONBLOCK | O_RDWR = 67 on a
blocking capable socket. -/
theorem setfl_sets_nonblock_bit_witness :
    (psock_vfcntl nuttx net_idle (some sock_capable) nuttx.F_SETFL 67).ret = 0
      ∧ ∃ conn2, (psock_vfcntl nuttx net_idle (some sock_capable) nuttx.F_SETFL 67).conn
            = some conn2
          ∧ (conn2.s_flags &&& nuttx._SF_NONBLOCK ≠ 0
              ↔ Int.land 67 (nuttx.O_NONBLOCK : Int) ≠ 0) :=
  setfl_sets_nonblock_bit nuttx net_idle sock_capable { s_flags := 0 } 67 rfl
    (by decide) (by decide) (by decide) (by decide)

/-- C4, counterexample: on a socket whose capability set lacks SOCKCAP_NONBLOCKING, the result
of F_SETFL is not different from the result of the unimplemented command F_GETOWN: both are
-ENOSYS (-38), so the failure is not reported by a kind separate from NotImplemented. -/
theorem setfl_unsupported_counterexample :
    ¬ ((psock_vfcntl nuttx net_idle (some sock_incapable) nuttx.F_SETFL 64).ret
        ≠ (psock_vfcntl nuttx net_idle (some sock_incapable) nuttx.F_GETOWN 64).ret) := by
  decide

/-- C4, amended: on a handle with a connection whose capability set lacks
SOCKCAP_NONBLOCKING, F_SETFL with any mode fails with -ENOSYS, the code the unimplemented
commands return, and the socket with its connection is left as it was. -/
theorem setfl_unsupported_returns_ENOSYS (K : Consts) (net : net_state) (s : socket)
    (conn : socket_conn_s) (mode : Int) (h : s.s_conn = some conn)
    (hlab : K.case_labels_distinct)
    (hcap : s.s_sockif.si_sockcaps s.s_conn &&& K.SOCKCAP_NONBLOCKING = 0) :
    (psock_vfcntl K net (some s) K.F_SETFL mode).ret = -(K.ENOSYS : Int)
      ∧ (psock_vfcntl K net (some s) K.F_SETFL mode).ret
          = (psock_vfcntl K net (some s) K.F_GETOWN mode).ret
      ∧ (psock_vfcntl K net (some s) K.F_SETFL mode).psock = some s := by
  have hnot : ¬ (s.s_sockif.si_sockcaps s.s_conn &&& K.SOCKCAP_NONBLOCKING ≠ 0) :=
    fun hne => hne hcap
  rw [psock_vfcntl_valid K net s conn _ _ h, psock_vfcntl_valid K net s conn _ _ h,
    switch_setfl K s conn _ mode _ hlab, if_neg hnot,
    switch_unimplemented K s conn _ _ mode _ hlab (Or.inl rfl)]
  refine ⟨rfl, rfl, ?_⟩
  simp only [socket_with_conn s conn h]

/-- C4 amended, at concrete inputs (NuttX values): F_SETFL with mode O_NONBLOCK on a socket
without the capability returns -38 and leaves the socket as it was. -/
theorem setfl_unsupported_returns_ENOSYS_witness :
    (psock_vfcntl nuttx net_idle (some sock_incapable) nuttx.F_SETFL 64).ret = -38
      ∧ (psock_vfcntl nuttx net_idle (some sock_incapable) nuttx.F_SETFL 64).ret
          = (psock_vfcntl nuttx net_idle (some sock_incapable) nuttx.F_GETOWN 64).ret
      ∧ (psock_vfcntl nuttx net_idle (some sock_incapable) nuttx.F_SETFL 64).psock
          = some sock_incapable :=
  setfl_unsupported_returns_ENOSYS nuttx net_idle sock_incapable { s_flags := 8 } 64 rfl
    (by decide) (by decide)

/-- C5: on a handle with a connection, each of F_GETOWN, F_SETOWN, F_GETLK, F_SETLK and
F_SETLKW, with any argument, capability set and connection state, returns -ENOSYS and leaves
the socket with its connection as it was. -/
theorem unimplemented_returns_ENOSYS (K : Consts) (net : net_state) (s : socket)
    (conn : socket_conn_s) (cmd ap : Int) (h : s.s_conn = some conn)
    (hlab : K.case_labels_distinct)
    (hcmd : cmd = K.F_GETOWN ∨ cmd = K.F_SETOWN ∨ cmd = K.F_GETLK ∨ cmd = K.F_SETLK
      ∨ cmd = K.F_SETLKW) :
    (psock_vfcntl K net (some s) cmd ap).ret = -(K.ENOSYS : Int)
      ∧ (psock_vfcntl K net (some s) cmd ap).psock = some s := by
  rw [psock_vfcntl_valid K net s conn _ _ h, switch_unimplemented K s conn _ cmd ap _ hlab hcmd]
  refine ⟨rfl, ?_⟩
  simp only [socket_with_conn s conn h]

/-- C5 at concrete inputs (NuttX values): F_SETLKW (12) on a capable socket returns -38. -/
theorem unimplemented_returns_ENOSYS_witness :
    (psock_vfcntl nuttx net_idle (some sock_capable) 12 0).ret = -38
      ∧ (psock_vfcntl nuttx net_idle (some sock_capable) 12 0).psock = some sock_capable :=
  unimplemented_returns_ENOSYS nuttx net_idle sock_capable { s_flags := 0 } 12 0 rfl
    (by decide) (by decide)

/-- C6: on a handle with a connection, every command code that is none of the seven case
labels returns -EINVAL and leaves the socket with its connection as it was. -/
theorem unknown_command_returns_EINVAL (K : Consts) (net : net_state) (s : socket)
    (conn : socket_conn_s) (cmd ap : Int) (h : s.s_conn = some conn)
    (hcmd : cmd ∉ [K.F_GETFL, K.F_SETFL, K.F_GETOWN, K.F_SETOWN, K.F_GETLK, K.F_SETLK,
      K.F_SETLKW]) :
    (psock_vfcntl K net (some s) cmd ap).ret = -(K.EINVAL : Int)
      ∧ (psock_vfcntl K net (some s) cmd ap).psock = some s := by
  rw [psock_vfcntl_valid K net s conn _ _ h, switch_default K s conn _ cmd ap _ hcmd]
  refine ⟨rfl, ?_⟩
  simp only [socket_with_conn s conn h]

/-- C6 at concrete inputs (NuttX values): F_DUPFD (0), F_GETFD (1), F_SETFD (8), the negative
code -1 and the code 1000 above the enumeration all return -22 on a capable socket. -/
theorem unknown_command_returns_EINVAL_witness :
    ((psock_vfcntl nuttx net_idle (some sock_capable) 0 0).ret = -22
      ∧ (psock_vfcntl nuttx net_idle (some sock_capable) 0 0).psock = some sock_capable)
    ∧ (psock_vfcntl nuttx net_idle (some sock_capable) 1 0).ret = -22
    ∧ (psock_vfcntl nuttx net_idle (some sock_capable) 8 0).ret = -22
    ∧ (psock_vfcntl nuttx net_idle (some sock_capable) (-1) 0).ret = -22
    ∧ (psock_vfcntl nuttx net_idle (some sock_capable) 1000 0).ret = -22 :=
  ⟨unknown_command_returns_EINVAL nuttx net_idle sock_capable { s_flags := 0 } 0 0 rfl
      (by decide),
    (unknown_command_returns_EINVAL nuttx net_idle sock_capable { s_flags := 0 } 1 0 rfl
      (by decide)).1,
    (unknown_command_returns_EINVAL nuttx net_idle sock_capable { s_flags := 0 } 8 0 rfl
      (by decide)).1,
    (unknown_command_returns_EINVAL nuttx net_idle sock_capable { s_flags := 0 } (-1) 0 rfl
      (by decide)).1,
    (unknown_command_returns_EINVAL nuttx net_idle sock_capable { s_flags := 0 } 1000 0 rfl
      (by decide)).1⟩

/-- C7: on a handle with a connection whose capability set has SOCKCAP_NONBLOCKING at both
calls, F_SETFL(mode) followed by F_GETFL yields r with (r & O_NONBLOCK) != 0 if and only if
(mode & O_NONBLOCK) != 0, and r has all the bits of O_RDWR | O_SYNC | O_RSYNC, for every
mode and every initial s_flags. (O_NONBLOCK is none of the baseline bits; _SF_NONBLOCK is a
non-empty mask inside the 8-bit s_flags.) -/
theorem setfl_getfl_round_trip (K : Consts) (net : net_state) (s : socket)
    (conn : socket_conn_s) (mode ap : Int) (caps : sockcaps_t) (h : s.s_conn = some conn)
    (hlab : K.case_labels_distinct)
    (hsf0 : K._SF_NONBLOCK ≠ 0) (hsf8 : K._SF_NONBLOCK < 256)
    (hbase : (K.O_RDWR ||| K.O_SYNC ||| K.O_RSYNC) &&& K.O_NONBLOCK = 0)
    (hconst : ∀ c, s.s_sockif.si_sockcaps c = caps)
    (hcap : caps &&& K.SOCKCAP_NONBLOCKING ≠ 0) :
    (Int.land (then_vfcntl K (psock_vfcntl K net (some s) K.F_SETFL mode) K.F_GETFL ap).ret
          (K.O_NONBLOCK : Int) ≠ 0
        ↔ Int.land mode (K.O_NONBLOCK : Int) ≠ 0)
      ∧ Int.land (then_vfcntl K (psock_vfcntl K net (some s) K.F_SETFL mode) K.F_GETFL ap).ret
            ((K.O_RDWR ||| K.O_SYNC ||| K.O_RSYNC : Nat) : Int)
          = ((K.O_RDWR ||| K.O_SYNC ||| K.O_RSYNC : Nat) : Int) := by
  have hcap1 : s.s_sockif.si_sockcaps s.s_conn &&& K.SOCKCAP_NONBLOCKING ≠ 0 := by
    rw [hconst]
    exact hcap
  rw [setfl_valid_capable K net s conn mode h hlab hcap1]
  simp only [then_vfcntl]
  rw [getfl_valid K _ _ { s_flags := setfl_flags K conn.s_flags mode } ap rfl]
  simp only [hconst, getfl_flags_eq]
  by_cases hm : Int.land mode (K.O_NONBLOCK : Int) ≠ 0
  · have hset : setfl_flags K conn.s_flags mode &&& K._SF_NONBLOCK ≠ 0 :=
      (setfl_flags_test K conn.s_flags mode hsf0 hsf8).2 hm
    have hnb : K.O_NONBLOCK ≠ 0 := by
      intro hz
      rw [hz, land_natCast_zero] at hm
      exact hm rfl
    rw [if_pos ⟨hcap, hset⟩, land_natCast, land_natCast, or_and_right_self, or_and_left_self]
    refine ⟨⟨fun _ => hm, fun _ => ?_⟩, rfl⟩
    exact_mod_cast hnb
  · have hclr : ¬ (setfl_flags K conn.s_flags mode &&& K._SF_NONBLOCK ≠ 0) :=
      fun hset => hm ((setfl_flags_test K conn.s_flags mode hsf0 hsf8).1 hset)
    rw [if_neg (fun hboth => hclr hboth.2), land_natCast, land_natCast, hbase, Nat.and_self]
    exact ⟨⟨fun hr => absurd rfl hr, fun hmode => absurd hmode hm⟩, rfl⟩

/-- C7 at concrete inputs (NuttX values), with the scenario of the claim: on a blocking
capable socket F_GETFL gives 131 (read, write, sync), F_SETFL(O_NONBLOCK) gives 0, and F_GETFL
then gives 195 = 131 | 64. -/
theorem setfl_getfl_round_trip_witness :
    ((Int.land (then_vfcntl nuttx (psock_vfcntl nuttx net_idle (some sock_capable)
              nuttx.F_SETFL 64) nuttx.F_GETFL 0).ret (nuttx.O_NONBLOCK : Int) ≠ 0
          ↔ Int.land 64 (nuttx.O_NONBLOCK : Int) ≠ 0)
        ∧ Int.land (then_vfcntl nuttx (psock_vfcntl nuttx net_idle (some sock_capable)
              nuttx.F_SETFL 64) nuttx.F_GETFL 0).ret
              ((nuttx.O_RDWR ||| nuttx.O_SYNC ||| nuttx.O_RSYNC : Nat) : Int)
            = ((nuttx.O_RDWR ||| nuttx.O_SYNC ||| nuttx.O_RSYNC : Nat) : Int))
      ∧ (psock_vfcntl nuttx net_idle (some sock_capable) nuttx.F_GETFL 0).ret = 131
      ∧ (psock_vfcntl nuttx net_idle (some sock_capable) nuttx.F_SETFL 64).ret = 0
      ∧ (then_vfcntl nuttx (psock_vfcntl nuttx net_idle (some sock_capable) nuttx.F_SETFL 64)
            nuttx.F_GETFL 0).ret = 195 :=
  ⟨setfl_getfl_round_trip nuttx net_idle sock_capable { s_flags := 0 } 64 0 1 rfl
      (by decide) (by decide) (by decide) (by decide) (fun _ => rfl) (by decide),
    by decide, by decide, by decide⟩

/-- C8: on a handle with a connection, whatever the capability set (the same at both calls),
the initial s_flags and the mode, a second F_SETFL(mode) right after the first returns the
same result code and leaves the same socket and connection as the first alone. -/
theorem setfl_idempotent (K : Consts) (net : net_state) (s : socket)
    (conn : socket_conn_s) (mode : Int) (caps : sockcaps_t) (h : s.s_conn = some conn)
    (hlab : K.case_labels_distinct)
    (hconst : ∀ c, s.s_sockif.si_sockcaps c = caps) :
    (then_vfcntl K (psock_vfcntl K net (some s) K.F_SETFL mode) K.F_SETFL mode).ret
        = (psock_vfcntl K net (some s) K.F_SETFL mode).ret
      ∧ (then_vfcntl K (psock_vfcntl K net (some s) K.F_SETFL mode) K.F_SETFL mode).psock
        = (psock_vfcntl K net (some s) K.F_SETFL mode).psock := by
  by_cases hcap : caps &&& K.SOCKCAP_NONBLOCKING ≠ 0
  · have hcap1 : s.s_sockif.si_sockcaps s.s_conn &&& K.SOCKCAP_NONBLOCKING ≠ 0 := by
      rw [hconst]
      exact hcap
    rw [setfl_valid_capable K net s conn mode h hlab hcap1]
    simp only [then_vfcntl]
    rw [setfl_valid_capable K _ _ { s_flags := setfl_flags K conn.s_flags mode } mode rfl hlab
      (by rw [hconst]; exact hcap)]
    simp only [setfl_flags_idem, and_self]
  · have hcap0 : s.s_sockif.si_sockcaps s.s_conn &&& K.SOCKCAP_NONBLOCKING = 0 := by
      rw [hconst]
      exact not_not.mp hcap
    rw [setfl_valid_incapable K net s conn mode h hlab hcap0]
    simp only [then_vfcntl]
    rw [setfl_valid_incapable K _ s conn mode h hlab hcap0]
    exact ⟨rfl, rfl⟩

/-- C8 at concrete inputs (NuttX values): F_SETFL(O_NONBLOCK) twice on a blocking capable
socket. -/
theorem setfl_idempotent_witness :
    (then_vfcntl nuttx (psock_vfcntl nuttx net_idle (some sock_capable) nuttx.F_SETFL 64)
          nuttx.F_SETFL 64).ret
        = (psock_vfcntl nuttx net_idle (some sock_capable) nuttx.F_SETFL 64).ret
      ∧ (then_vfcntl nuttx (psock_vfcntl nuttx net_idle (some sock_capable) nuttx.F_SETFL 64)
          nuttx.F_SETFL 64).psock
        = (psock_vfcntl nuttx net_idle (some sock_capable) nuttx.F_SETFL 64).psock :=
  setfl_idempotent nuttx net_idle sock_capable { s_flags := 0 } 64 1 rfl (by decide)
    (fun _ => rfl)

/-- C9: on a handle with a connection whose capability set lacks SOCKCAP_NONBLOCKING,
whatever s_flags holds (also with _SF_NONBLOCK set), F_GETFL after an F_SETFL (with any mode,
so also one with O_NONBLOCK set) returns what F_GETFL returned before it, and that value has
no O_NONBLOCK bit. (O_NONBLOCK is none of the baseline bits.) -/
theorem setfl_unsupported_getfl_unchanged (K : Consts) (net : net_state) (s : socket)
    (conn : socket_conn_s) (mode ap : Int) (h : s.s_conn = some conn)
    (hlab : K.case_labels_distinct)
    (hbase : (K.O_RDWR ||| K.O_SYNC ||| K.O_RSYNC) &&& K.O_NONBLOCK = 0)
    (hcap : s.s_sockif.si_sockcaps s.s_conn &&& K.SOCKCAP_NONBLOCKING = 0) :
    (then_vfcntl K (psock_vfcntl K net (some s) K.F_SETFL mode) K.F_GETFL ap).ret
        = (psock_vfcntl K net (some s) K.F_GETFL ap).ret
      ∧ Int.land (psock_vfcntl K net (some s) K.F_GETFL ap).ret (K.O_NONBLOCK : Int) = 0 := by
  rw [setfl_valid_incapable K net s conn mode h hlab hcap]
  simp only [then_vfcntl]
  rw [getfl_valid K _ s conn ap h, getfl_valid K net s conn ap h]
  refine ⟨rfl, ?_⟩
  simp only [getfl_flags_eq]
  rw [if_neg (fun hboth => hboth.1 hcap), land_natCast, hbase]
  rfl

/-- C9 at concrete inputs (NuttX values): the socket without capability has _SF_NONBLOCK
already set; F_SETFL(O_NONBLOCK) fails with -38 and F_GETFL reads 131 before and after. -/
theorem setfl_unsupported_getfl_unchanged_witness :
    ((then_vfcntl nuttx (psock_vfcntl nuttx net_idle (some sock_incapable) nuttx.F_SETFL 64)
          nuttx.F_GETFL 0).ret
        = (psock_vfcntl nuttx net_idle (some sock_incapable) nuttx.F_GETFL 0).ret
      ∧ Int.land (psock_vfcntl nuttx net_idle (some sock_incapable) nuttx.F_GETFL 0).ret
          (nuttx.O_NONBLOCK : Int) = 0)
    ∧ (psock_vfcntl nuttx net_idle (some sock_incapable) nuttx.F_SETFL 64).ret = -38
    ∧ (psock_vfcntl nuttx net_idle (some sock_incapable) nuttx.F_GETFL 0).ret = 131 :=
  ⟨setfl_unsupported_getfl_unchanged nuttx net_idle sock_incapable { s_flags := 8 } 64 0 rfl
      (by decide) (by decide) (by decide),
    by decide, by decide⟩

/-- C10: on a handle with a connection, two modes with the same (mode & O_NONBLOCK) make
F_SETFL return the same result and leave the same socket, connection and lock state; and
with the capability present the result is 0 for every mode, so no value of the other bits
is rejected. -/
theorem setfl_ignores_other_bits (K : Consts) (net : net_state) (s : socket)
    (conn : socket_conn_s) (m1 m2 : Int) (h : s.s_conn = some conn)
    (hlab : K.case_labels_distinct)
    (hmode : Int.land m1 (K.O_NONBLOCK : Int) = Int.land m2 (K.O_NONBLOCK : Int)) :
    psock_vfcntl K net (some s) K.F_SETFL m1 = psock_vfcntl K net (some s) K.F_SETFL m2
      ∧ (s.s_sockif.si_sockcaps s.s_conn &&& K.SOCKCAP_NONBLOCKING ≠ 0 →
          (psock_vfcntl K net (some s) K.F_SETFL m1).ret = 0) := by
  refine ⟨?_, ?_⟩
  · rw [psock_vfcntl_valid K net s conn _ _ h, psock_vfcntl_valid K net s conn _ _ h,
      switch_setfl K s conn _ m1 _ hlab, switch_setfl K s conn _ m2 _ hlab, hmode]
  · intro hcap
    rw [setfl_valid_capable K net s conn m1 h hlab hcap]

/-- C10 at concrete inputs (NuttX values): modes 64 and 64 | 3 | 128 | 1024 = 1219 on a
blocking capable socket. -/
theorem setfl_ignores_other_bits_witness :
    psock_vfcntl nuttx net_idle (some sock_capable) nuttx.F_SETFL 64
        = psock_vfcntl nuttx net_idle (some sock_capable) nuttx.F_SETFL 1219
      ∧ (sock_capable.s_sockif.si_sockcaps sock_capable.s_conn &&& nuttx.SOCKCAP_NONBLOCKING ≠ 0 →
          (psock_vfcntl nuttx net_idle (some sock_capable) nuttx.F_SETFL 64).ret = 0) :=
  setfl_ignores_other_bits nuttx net_idle sock_capable { s_flags := 0 } 64 1219 rfl
    (by decide) (by decide)

/-! ## Claims on result codes and on the lock -/

/-- C11, counterexample: the four failure results are not pairwise distinct. On a socket
without SOCKCAP_NONBLOCKING (NuttX values) F_SETFL, the unimplemented F_SETLK, the unknown
command 0 and a call on a socket without connection do not give four different results:
F_SETFL and F_SETLK both return -38. -/
theorem failure_codes_counterexample :
    ¬ ((psock_vfcntl nuttx net_idle (some sock_incapable) nuttx.F_SETFL 0).ret
          ≠ (psock_vfcntl nuttx net_idle (some sock_incapable) nuttx.F_SETLK 0).ret
        ∧ (psock_vfcntl nuttx net_idle (some sock_incapable) nuttx.F_SETFL 0).ret
          ≠ (psock_vfcntl nuttx net_idle (some sock_incapable) 0 0).ret
        ∧ (psock_vfcntl nuttx net_idle (some sock_incapable) nuttx.F_SETFL 0).ret
          ≠ (psock_vfcntl nuttx net_idle (some sock_unconnected) nuttx.F_SETFL 0).ret
        ∧ (psock_vfcntl nuttx net_idle (some sock_incapable) nuttx.F_SETLK 0).ret
          ≠ (psock_vfcntl nuttx net_idle (some sock_incapable) 0 0).ret
        ∧ (psock_vfcntl nuttx net_idle (some sock_incapable) nuttx.F_SETLK 0).ret
          ≠ (psock_vfcntl nuttx net_idle (some sock_unconnected) nuttx.F_SETLK 0).ret) := by
  decide

/-- C11, amended: the failures are reported with three pairwise distinct result codes. On a
handle with a connection, F_SETFL without the capability returns the same code as each of
the five unimplemented commands (-ENOSYS); that code differs from the unknown-command result
(-EINVAL) and from the bad-handle result (-EBADF), and these two differ from each other.
(EBADF, ENOSYS and EINVAL are three different errno numbers.) -/
theorem failure_codes_three_kinds (K : Consts) (net : net_state) (s : socket)
    (conn : socket_conn_s) (bad : Option socket) (mode cmd ap unknown : Int)
    (h : s.s_conn = some conn) (hbad : bad_handle bad)
    (hlab : K.case_labels_distinct)
    (he1 : K.ENOSYS ≠ K.EINVAL) (he2 : K.ENOSYS ≠ K.EBADF) (he3 : K.EINVAL ≠ K.EBADF)
    (hcap : s.s_sockif.si_sockcaps s.s_conn &&& K.SOCKCAP_NONBLOCKING = 0)
    (hcmd : cmd = K.F_GETOWN ∨ cmd = K.F_SETOWN ∨ cmd = K.F_GETLK ∨ cmd = K.F_SETLK
      ∨ cmd = K.F_SETLKW)
    (hunk : unknown ∉ [K.F_GETFL, K.F_SETFL, K.F_GETOWN, K.F_SETOWN, K.F_GETLK, K.F_SETLK,
      K.F_SETLKW]) :
    (psock_vfcntl K net (some s) K.F_SETFL mode).ret = (psock_vfcntl K net (some s) cmd ap).ret
      ∧ (psock_vfcntl K net (some s) cmd ap).ret
          ≠ (psock_vfcntl K net (some s) unknown ap).ret
      ∧ (psock_vfcntl K net (some s) cmd ap).ret ≠ (psock_vfcntl K net bad cmd ap).ret
      ∧ (psock_vfcntl K net (some s) unknown ap).ret
          ≠ (psock_vfcntl K net bad unknown ap).ret := by
  have hb : ∀ c : Int, (psock_vfcntl K net bad c ap).ret = -(K.EBADF : Int) := by
    intro c
    rcases hbad with hn | ⟨b, hb1, hb2⟩
    · subst hn
      rfl
    · subst hb1
      simp only [psock_vfcntl, hb2]
  rw [hb cmd, hb unknown, setfl_valid_incapable K net s conn mode h hlab hcap,
    psock_vfcntl_valid K net s conn cmd ap h, psock_vfcntl_valid K net s conn unknown ap h,
    switch_unimplemented K s conn _ cmd ap _ hlab hcmd, switch_default K s conn _ unknown ap _ hunk]
  refine ⟨rfl, ?_, ?_, ?_⟩
  · show -(K.ENOSYS : Int) ≠ -(K.EINVAL : Int)
    intro e
    exact he1 (by exact_mod_cast neg_injective e)
  · show -(K.ENOSYS : Int) ≠ -(K.EBADF : Int)
    intro e
    exact he2 (by exact_mod_cast neg_injective e)
  · show -(K.EINVAL : Int) ≠ -(K.EBADF : Int)
    intro e
    exact he3 (by exact_mod_cast neg_injective e)

/-- C11 amended, at concrete inputs (NuttX values): F_SETFL without capability and F_SETLK
agree; they differ from command 0 (unknown) and from a call on a socket without
connection. -/
theorem failure_codes_three_kinds_witness :
    (psock_vfcntl nuttx net_idle (some sock_incapable) nuttx.F_SETFL 64).ret
        = (psock_vfcntl nuttx net_idle (some sock_incapable) 11 0).ret
      ∧ (psock_vfcntl nuttx net_idle (some sock_incapable) 11 0).ret
          ≠ (psock_vfcntl nuttx net_idle (some sock_incapable) 0 0).ret
      ∧ (psock_vfcntl nuttx net_idle (some sock_incapable) 11 0).ret
          ≠ (psock_vfcntl nuttx net_idle (some sock_unconnected) 11 0).ret
      ∧ (psock_vfcntl nuttx net_idle (some sock_incapable) 0 0).ret
          ≠ (psock_vfcntl nuttx net_idle (some sock_unconnected) 0 0).ret :=
  failure_codes_three_kinds nuttx net_idle sock_incapable { s_flags := 8 }
    (some sock_unconnected) 64 11 0 0 rfl (Or.inr ⟨sock_unconnected, rfl, rfl⟩)
    (by decide) (by decide) (by decide) (by decide) (by decide) (by decide) (by decide)

/-- C12: with the lock as a nesting counter, psock_vfcntl returns with the counter at its
entry value for every handle, command and argument; and the operations it records are none
for a handle without connection, and for a handle with a connection exactly one net_lock,
then the capability query in the F_GETFL and F_SETFL cases, then exactly one net_unlock,
whatever branch of the switch runs. -/
theorem lock_balanced (K : Consts) (net : net_state) (psock : Option socket) (cmd ap : Int) :
    (psock_vfcntl K net psock cmd ap).net.count = net.count
      ∧ (psock_vfcntl K net psock cmd ap).net.trace
          = net.trace ++
              (if has_conn psock = true then
                net_event.lock ::
                  ((if cmd = K.F_GETFL ∨ cmd = K.F_SETFL then [net_event.sockcaps] else [])
                    ++ [net_event.unlock])
              else []) := by
  cases psock with
  | none => simp [psock_vfcntl, has_conn]
  | some s =>
    cases hs : s.s_conn with
    | none => simp [psock_vfcntl, has_conn, hs]
    | some conn =>
      rw [psock_vfcntl_valid K net s conn cmd ap hs]
      simp only [has_conn, hs, Option.isSome_some, if_true]
      by_cases h1 : cmd = K.F_GETFL
      · simp only [vfcntl_switch, call_si_sockcaps, if_pos h1, net_lock, net_unlock]
        split <;> simp [h1]
      · by_cases h2 : cmd = K.F_SETFL
        · simp only [vfcntl_switch, call_si_sockcaps, if_neg h1, if_pos h2, net_lock, net_unlock]
          split
          · split <;> simp [h2]
          · simp [h2]
        · simp only [vfcntl_switch, if_neg h1, if_neg h2, net_lock, net_unlock]
          split <;> simp [h1, h2]

/-- C13: for a NULL handle or a handle with a NULL connection, every command returns -EBADF
with nothing recorded: no net_lock, no net_unlock and no capability query took place, and
the lock counter is untouched. -/
theorem bad_handle_no_lock (K : Consts) (net : net_state) (psock : Option socket)
    (cmd ap : Int) (h : bad_handle psock) :
    (psock_vfcntl K net psock cmd ap).net.trace = net.trace
      ∧ (psock_vfcntl K net psock cmd ap).net.count = net.count
      ∧ (psock_vfcntl K net psock cmd ap).ret = -(K.EBADF : Int) := by
  rcases h with h | ⟨s, hs, hc⟩
  · subst h
    exact ⟨rfl, rfl, rfl⟩
  · subst hs
    simp only [psock_vfcntl, hc, and_self]

/-- C13 at concrete inputs (NuttX values): F_GETFL on a socket without connection records
nothing, whereas on a socket with a connection it records lock, query, unlock. -/
theorem bad_handle_no_lock_witness :
    ((psock_vfcntl nuttx net_idle (some sock_unconnected) nuttx.F_GETFL 0).net.trace
          = net_idle.trace
        ∧ (psock_vfcntl nuttx net_idle (some sock_unconnected) nuttx.F_GETFL 0).net.count
          = net_idle.count
        ∧ (psock_vfcntl nuttx net_idle (some sock_unconnected) nuttx.F_GETFL 0).ret = -9)
      ∧ (psock_vfcntl nuttx net_idle (some sock_capable) nuttx.F_GETFL 0).net.trace
          = [net_event.lock, net_event.sockcaps, net_event.unlock] :=
  ⟨bad_handle_no_lock nuttx net_idle (some sock_unconnected) nuttx.F_GETFL 0
      (Or.inr ⟨sock_unconnected, rfl, rfl⟩),
    by decide⟩

/-! ## Claims on the range of the return value -/

theorem getfl_flags_nonneg (K : Consts) (caps : sockcaps_t) (f : Nat) :
    0 ≤ getfl_flags K caps f := by
  rw [getfl_flags_eq]
  split <;> exact Int.ofNat_nonneg _

/-- The result of F_SETFL on a handle with a connection is `OK` or `-ENOSYS`. -/
theorem setfl_ret_cases (K : Consts) (net : net_state) (s : socket) (conn : socket_conn_s)
    (mode : Int) (h : s.s_conn = some conn) (hlab : K.case_labels_distinct) :
    (psock_vfcntl K net (some s) K.F_SETFL mode).ret = 0
      ∨ (psock_vfcntl K net (some s) K.F_SETFL mode).ret = -(K.ENOSYS : Int) := by
  by_cases hcap : s.s_sockif.si_sockcaps s.s_conn &&& K.SOCKCAP_NONBLOCKING ≠ 0
  · rw [setfl_valid_capable K net s conn mode h hlab hcap]
    exact Or.inl rfl
  · rw [setfl_valid_incapable K net s conn mode h hlab (not_not.mp hcap)]
    exact Or.inr rfl

/-- C14: on a handle with a connection, for every capability set and s_flags, the result of
F_GETFL is non-negative and so differs from -EBADF, -ENOSYS and -EINVAL, the negated errno
values the function returns; and a non-negative (successful) result of F_SETFL is exactly 0.
(The three errno numbers are positive.) -/
theorem getfl_never_fails (K : Consts) (net : net_state) (s : socket)
    (conn : socket_conn_s) (ap mode : Int) (h : s.s_conn = some conn)
    (hlab : K.case_labels_distinct)
    (he1 : 0 < K.EBADF) (he2 : 0 < K.ENOSYS) (he3 : 0 < K.EINVAL) :
    0 ≤ (psock_vfcntl K net (some s) K.F_GETFL ap).ret
      ∧ (psock_vfcntl K net (some s) K.F_GETFL ap).ret ≠ -(K.EBADF : Int)
      ∧ (psock_vfcntl K net (some s) K.F_GETFL ap).ret ≠ -(K.ENOSYS : Int)
      ∧ (psock_vfcntl K net (some s) K.F_GETFL ap).ret ≠ -(K.EINVAL : Int)
      ∧ (0 ≤ (psock_vfcntl K net (some s) K.F_SETFL mode).ret →
          (psock_vfcntl K net (some s) K.F_SETFL mode).ret = 0) := by
  have hge : 0 ≤ (psock_vfcntl K net (some s) K.F_GETFL ap).ret := by
    rw [getfl_valid K net s conn ap h]
    exact getfl_flags_nonneg K _ _
  refine ⟨hge, ?_, ?_, ?_, ?_⟩
  · omega
  · omega
  · omega
  · intro hs
    rcases setfl_ret_cases K net s conn mode h hlab with h0 | hE
    · exact h0
    · omega

/-- C14 at concrete inputs (NuttX values): F_GETFL on a blocking capable socket. -/
theorem getfl_never_fails_witness :
    0 ≤ (psock_vfcntl nuttx net_idle (some sock_capable) nuttx.F_GETFL 0).ret
      ∧ (psock_vfcntl nuttx net_idle (some sock_capable) nuttx.F_GETFL 0).ret
          ≠ -(nuttx.EBADF : Int)
      ∧ (psock_vfcntl nuttx net_idle (some sock_capable) nuttx.F_GETFL 0).ret
          ≠ -(nuttx.ENOSYS : Int)
      ∧ (psock_vfcntl nuttx net_idle (some sock_capable) nuttx.F_GETFL 0).ret
          ≠ -(nuttx.EINVAL : Int)
      ∧ (0 ≤ (psock_vfcntl nuttx net_idle (some sock_capable) nuttx.F_SETFL 64).ret →
          (psock_vfcntl nuttx net_idle (some sock_capable) nuttx.F_SETFL 64).ret = 0) :=
  getfl_never_fails nuttx net_idle sock_capable { s_flags := 0 } 0 64 rfl
    (by decide) (by decide) (by decide) (by decide)

/-- C15, counterexample: F_GETFL on a blocking capable socket (NuttX values) returns 131,
which is neither 0 nor the negation of a (positive) errno number. -/
theorem return_zero_or_errno_counterexample :
    ¬ ((psock_vfcntl nuttx net_idle (some sock_capable) nuttx.F_GETFL 0).ret = 0
        ∨ ∃ e : Nat, 0 < e
            ∧ (psock_vfcntl nuttx net_idle (some sock_capable) nuttx.F_GETFL 0).ret
                = -(e : Int)) := by
  have hv : (psock_vfcntl nuttx net_idle (some sock_capable) nuttx.F_GETFL 0).ret = 131 := by
    decide
  rw [hv]
  rintro (h0 | ⟨e, _, he⟩) <;> omega

/-- C15, amended: every return value of psock_vfcntl is a non-negative value on success
(the composed flags, returned by F_GETFL on a handle with a connection, or 0) or one of the
negated errno values -EBADF, -ENOSYS, -EINVAL. -/
theorem return_value_kinds (K : Consts) (net : net_state) (psock : Option socket)
    (cmd ap : Int) :
    (cmd = K.F_GETFL ∧ has_conn psock = true ∧ 0 ≤ (psock_vfcntl K net psock cmd ap).ret)
      ∨ (psock_vfcntl K net psock cmd ap).ret = 0
      ∨ (psock_vfcntl K net psock cmd ap).ret = -(K.EBADF : Int)
      ∨ (psock_vfcntl K net psock cmd ap).ret = -(K.ENOSYS : Int)
      ∨ (psock_vfcntl K net psock cmd ap).ret = -(K.EINVAL : Int) := by
  cases psock with
  | none => exact Or.inr (Or.inr (Or.inl rfl))
  | some s =>
    cases hs : s.s_conn with
    | none =>
      refine Or.inr (Or.inr (Or.inl ?_))
      simp only [psock_vfcntl, hs]
    | some conn =>
      by_cases h1 : cmd = K.F_GETFL
      · refine Or.inl ⟨h1, ?_, ?_⟩
        · simp only [has_conn, hs, Option.isSome_some]
        · rw [h1, getfl_valid K net s conn ap hs]
          exact getfl_flags_nonneg K _ _
      · rw [psock_vfcntl_valid K net s conn cmd ap hs]
        by_cases h2 : cmd = K.F_SETFL
        · simp only [vfcntl_switch, call_si_sockcaps, if_neg h1, if_pos h2, OK]
          split
          · split
            · exact Or.inr (Or.inl rfl)
            · exact Or.inr (Or.inl rfl)
          · exact Or.inr (Or.inr (Or.inr (Or.inl rfl)))
        · simp only [vfcntl_switch, if_neg h1, if_neg h2]
          split
          · exact Or.inr (Or.inr (Or.inr (Or.inl rfl)))
          · exact Or.inr (Or.inr (Or.inr (Or.inr rfl)))

/-! ## Claims on what F_SETFL and F_GETFL touch -/

theorem testBit_uint8_high (f i : Nat) (h8 : f < 256) (hi : ¬ i < 8) : f.testBit i = false := by
  apply Nat.testBit_lt_two_pow
  have h1 : 2 ^ 8 ≤ 2 ^ i := Nat.pow_le_pow_right (by norm_num) (by omega)
  omega

/-- The F_SETFL update leaves the bits outside `_SF_NONBLOCK` of an 8-bit value alone. -/
theorem setfl_flags_other_bits (K : Consts) (f : Nat) (mode : Int) (h8 : f < 256) :
    Nat.ldiff (setfl_flags K f mode) K._SF_NONBLOCK = Nat.ldiff f K._SF_NONBLOCK := by
  rw [setfl_flags_eq]
  apply Nat.eq_of_testBit_eq
  intro i
  by_cases hi : i < 8
  · split <;>
      simp only [Nat.testBit_ldiff, testBit_mod_256, Nat.testBit_or, hi, decide_True,
        Bool.true_and] <;>
      cases f.testBit i <;> cases K._SF_NONBLOCK.testBit i <;> rfl
  · split <;>
      simp only [Nat.testBit_ldiff, testBit_mod_256, Nat.testBit_or, hi, decide_False,
        Bool.false_and, testBit_uint8_high f i h8 hi]

/-- The F_SETFL update overrides an earlier one. -/
theorem setfl_flags_last (K : Consts) (f : Nat) (m1 m2 : Int) :
    setfl_flags K (setfl_flags K f m1) m2 = setfl_flags K f m2 := by
  simp only [setfl_flags_eq]
  apply Nat.eq_of_testBit_eq
  intro i
  split <;> split <;>
    simp only [Nat.testBit_ldiff, testBit_mod_256, Nat.testBit_or] <;>
    cases decide (i < 8) <;> cases f.testBit i <;> cases K._SF_NONBLOCK.testBit i <;> rfl

/-- The F_SETFL update reads the old value only outside `_SF_NONBLOCK`. -/
theorem setfl_flags_congr (K : Consts) (f g : Nat) (mode : Int)
    (hfg : Nat.ldiff f K._SF_NONBLOCK = Nat.ldiff g K._SF_NONBLOCK) :
    setfl_flags K f mode = setfl_flags K g mode := by
  simp only [setfl_flags_eq]
  have hb : ∀ i, (f.testBit i && !K._SF_NONBLOCK.testBit i)
      = (g.testBit i && !K._SF_NONBLOCK.testBit i) := by
    intro i
    rw [← Nat.testBit_ldiff, ← Nat.testBit_ldiff, hfg]
  split
  · apply Nat.eq_of_testBit_eq
    intro i
    have hi := hb i
    simp only [testBit_mod_256, Nat.testBit_or]
    cases decide (i < 8) <;> cases hf : f.testBit i <;> cases hg : g.testBit i <;>
      cases hm : K._SF_NONBLOCK.testBit i <;> simp_all
  · rw [hfg]

/-- C17: on a handle with a connection and the capability, for every 8-bit s_flags value f
and every mode, the value after F_SETFL agrees with f outside _SF_NONBLOCK
(new & ~_SF_NONBLOCK = f & ~_SF_NONBLOCK, with the int promotion and the store back into
the uint8_t), the call returns 0, and nothing of the socket but s_flags changes. -/
theorem setfl_touches_only_nonblock_bit (K : Consts) (net : net_state) (s : socket)
    (conn : socket_conn_s) (mode : Int) (h : s.s_conn = some conn)
    (hlab : K.case_labels_distinct) (h8 : conn.s_flags < 256)
    (hcap : s.s_sockif.si_sockcaps s.s_conn &&& K.SOCKCAP_NONBLOCKING ≠ 0) :
    ∃ f2 : Nat,
      (psock_vfcntl K net (some s) K.F_SETFL mode).psock
          = some { s with s_conn := some { conn with s_flags := f2 } }
        ∧ Int.land (f2 : Int) (~~~(K._SF_NONBLOCK : Int))
            = Int.land (conn.s_flags : Int) (~~~(K._SF_NONBLOCK : Int))
        ∧ (psock_vfcntl K net (some s) K.F_SETFL mode).ret = 0 := by
  refine ⟨setfl_flags K conn.s_flags mode, ?_, ?_, ?_⟩
  · rw [setfl_valid_capable K net s conn mode h hlab hcap]
  · rw [land_not_natCast, land_not_natCast, setfl_flags_other_bits K conn.s_flags mode h8]
  · rw [setfl_valid_capable K net s conn mode h hlab hcap]

/-- C17 at concrete inputs (NuttX values): F_SETFL(O_NONBLOCK) on a blocking capable
socket. -/
theorem setfl_touches_only_nonblock_bit_witness :
    ∃ f2 : Nat,
      (psock_vfcntl nuttx net_idle (some sock_capable) nuttx.F_SETFL 64).psock
          = some { sock_capable with
              s_conn := some { ({ s_flags := 0 } : socket_conn_s) with s_flags := f2 } }
        ∧ Int.land (f2 : Int) (~~~(nuttx._SF_NONBLOCK : Int))
            = Int.land (((({ s_flags := 0 } : socket_conn_s).s_flags : Nat)) : Int)
                (~~~(nuttx._SF_NONBLOCK : Int))
        ∧ (psock_vfcntl nuttx net_idle (some sock_capable) nuttx.F_SETFL 64).ret = 0 :=
  setfl_touches_only_nonblock_bit nuttx net_idle sock_capable { s_flags := 0 } 64 rfl
    (by decide) (by decide) (by decide)

/-- The return value and the socket that a call leaves do not depend on the lock state. -/
theorem psock_vfcntl_net_indep (K : Consts) (net1 net2 : net_state) (psock : Option socket)
    (cmd ap : Int) :
    (psock_vfcntl K net1 psock cmd ap).ret = (psock_vfcntl K net2 psock cmd ap).ret
      ∧ (psock_vfcntl K net1 psock cmd ap).psock = (psock_vfcntl K net2 psock cmd ap).psock := by
  cases psock with
  | none => exact ⟨rfl, rfl⟩
  | some s =>
    cases hs : s.s_conn with
    | none => simp only [psock_vfcntl, hs, and_self]
    | some conn =>
      rw [psock_vfcntl_valid K net1 s conn cmd ap hs, psock_vfcntl_valid K net2 s conn cmd ap hs]
      simp only [vfcntl_switch, call_si_sockcaps]
      split
      · split <;> exact ⟨rfl, rfl⟩
      · split
        · split
          · split <;> exact ⟨rfl, rfl⟩
          · exact ⟨rfl, rfl⟩
        · split <;> exact ⟨rfl, rfl⟩

/-- F_GETFL leaves the socket behind any handle as it was. -/
theorem getfl_psock (K : Consts) (net : net_state) (psock : Option socket) (ap : Int) :
    (psock_vfcntl K net psock K.F_GETFL ap).psock = psock := by
  cases psock with
  | none => rfl
  | some s =>
    cases hs : s.s_conn with
    | none => simp only [psock_vfcntl, hs]
    | some conn => rw [getfl_valid K net s conn ap hs]

/-- C18: on a handle with a connection F_GETFL leaves the socket with its connection as it
was; a second F_GETFL right after it returns the same value; and an F_GETFL put between two
other calls changes neither the state the first one left, nor the result of the second, nor
the socket the second leaves. -/
theorem getfl_is_pure_query (K : Consts) (net : net_state) (s : socket)
    (conn : socket_conn_s) (ap ap2 : Int) (h : s.s_conn = some conn) :
    (psock_vfcntl K net (some s) K.F_GETFL ap).psock = some s
      ∧ (then_vfcntl K (psock_vfcntl K net (some s) K.F_GETFL ap) K.F_GETFL ap2).ret
          = (psock_vfcntl K net (some s) K.F_GETFL ap).ret
      ∧ ∀ c1 a1 c2 a2 : Int,
          (then_vfcntl K (psock_vfcntl K net (some s) c1 a1) K.F_GETFL ap).psock
              = (psock_vfcntl K net (some s) c1 a1).psock
            ∧ (then_vfcntl K
                  (then_vfcntl K (psock_vfcntl K net (some s) c1 a1) K.F_GETFL ap) c2 a2).ret
              = (then_vfcntl K (psock_vfcntl K net (some s) c1 a1) c2 a2).ret
            ∧ (then_vfcntl K
                  (then_vfcntl K (psock_vfcntl K net (some s) c1 a1) K.F_GETFL ap) c2 a2).psock
              = (then_vfcntl K (psock_vfcntl K net (some s) c1 a1) c2 a2).psock := by
  refine ⟨getfl_psock K net (some s) ap, ?_, ?_⟩
  · simp only [then_vfcntl, getfl_psock]
    rw [getfl_valid K _ s conn ap2 h, getfl_valid K net s conn ap h]
  · intro c1 a1 c2 a2
    simp only [then_vfcntl, getfl_psock]
    exact ⟨trivial, psock_vfcntl_net_indep K _ _ _ c2 a2⟩

/-- C18 at concrete inputs (NuttX values): F_GETFL on a blocking capable socket, also put
between F_SETFL(O_NONBLOCK) and a closing F_GETFL, which reads 195 either way. -/
theorem getfl_is_pure_query_witness :
    ((psock_vfcntl nuttx net_idle (some sock_capable) nuttx.F_GETFL 0).psock
          = some sock_capable
        ∧ (then_vfcntl nuttx (psock_vfcntl nuttx net_idle (some sock_capable) nuttx.F_GETFL 0)
              nuttx.F_GETFL 0).ret
            = (psock_vfcntl nuttx net_idle (some sock_capable) nuttx.F_GETFL 0).ret)
      ∧ (then_vfcntl nuttx
            (then_vfcntl nuttx (psock_vfcntl nuttx net_idle (some sock_capable) nuttx.F_SETFL 64)
              nuttx.F_GETFL 0) nuttx.F_GETFL 0).ret
          = (then_vfcntl nuttx (psock_vfcntl nuttx net_idle (some sock_capable) nuttx.F_SETFL 64)
              nuttx.F_GETFL 0).ret
      ∧ (then_vfcntl nuttx (psock_vfcntl nuttx net_idle (some sock_capable) nuttx.F_SETFL 64)
            nuttx.F_GETFL 0).ret = 195 :=
  ⟨⟨(getfl_is_pure_query nuttx net_idle sock_capable { s_flags := 0 } 0 0 rfl).1,
      (getfl_is_pure_query nuttx net_idle sock_capable { s_flags := 0 } 0 0 rfl).2.1⟩,
    ((getfl_is_pure_query nuttx net_idle sock_capable { s_flags := 0 } 0 0 rfl).2.2
      nuttx.F_SETFL 64 nuttx.F_GETFL 0).2.1,
    by decide⟩

/-- C19: on a handle with a connection whose capability set has SOCKCAP_NONBLOCKING at both
calls, F_SETFL(m1) followed by F_SETFL(m2) leaves exactly the socket and connection that
F_SETFL(m2) alone leaves; and F_SETFL(m2) on a connection whose s_flags agrees with the
given one outside _SF_NONBLOCK leaves the same socket and connection too. -/
theorem setfl_last_writer_wins (K : Consts) (net : net_state) (s : socket)
    (conn : socket_conn_s) (m1 m2 : Int) (caps : sockcaps_t) (h : s.s_conn = some conn)
    (hlab : K.case_labels_distinct)
    (hconst : ∀ c, s.s_sockif.si_sockcaps c = caps)
    (hcap : caps &&& K.SOCKCAP_NONBLOCKING ≠ 0) :
    (then_vfcntl K (psock_vfcntl K net (some s) K.F_SETFL m1) K.F_SETFL m2).psock
        = (psock_vfcntl K net (some s) K.F_SETFL m2).psock
      ∧ ∀ conn2 : socket_conn_s,
          Int.land (conn2.s_flags : Int) (~~~(K._SF_NONBLOCK : Int))
              = Int.land (conn.s_flags : Int) (~~~(K._SF_NONBLOCK : Int)) →
          (psock_vfcntl K net (some { s with s_conn := some conn2 }) K.F_SETFL m2).psock
            = (psock_vfcntl K net (some s) K.F_SETFL m2).psock := by
  have hcap1 : ∀ c, s.s_sockif.si_sockcaps c &&& K.SOCKCAP_NONBLOCKING ≠ 0 := by
    intro c
    rw [hconst]
    exact hcap
  refine ⟨?_, ?_⟩
  · rw [setfl_valid_capable K net s conn m1 h hlab (hcap1 _),
      setfl_valid_capable K net s conn m2 h hlab (hcap1 _)]
    simp only [then_vfcntl]
    rw [setfl_valid_capable K _
      { s with s_conn := some { s_flags := setfl_flags K conn.s_flags m1 } }
      { s_flags := setfl_flags K conn.s_flags m1 } m2 rfl hlab (hcap1 _)]
    simp only [setfl_flags_last]
  · intro conn2 hsame
    rw [land_not_natCast, land_not_natCast] at hsame
    have hsame2 : Nat.ldiff conn2.s_flags K._SF_NONBLOCK
        = Nat.ldiff conn.s_flags K._SF_NONBLOCK := by
      exact_mod_cast hsame
    rw [setfl_valid_capable K net s conn m2 h hlab (hcap1 _),
      setfl_valid_capable K net { s with s_conn := some conn2 } conn2 m2 rfl hlab (hcap1 _),
      setfl_flags_congr K conn2.s_flags conn.s_flags m2 hsame2]

/-- C19 at concrete inputs (NuttX values): F_SETFL(0) then F_SETFL(O_NONBLOCK) on a blocking
capable socket. -/
theorem setfl_last_writer_wins_witness :
    (then_vfcntl nuttx (psock_vfcntl nuttx net_idle (some sock_capable) nuttx.F_SETFL 0)
          nuttx.F_SETFL 64).psock
        = (psock_vfcntl nuttx net_idle (some sock_capable) nuttx.F_SETFL 64).psock
      ∧ ∀ conn2 : socket_conn_s,
          Int.land (conn2.s_flags : Int) (~~~(nuttx._SF_NONBLOCK : Int))
              = Int.land ((({ s_flags := 0 } : socket_conn_s).s_flags : Nat) : Int)
                  (~~~(nuttx._SF_NONBLOCK : Int)) →
          (psock_vfcntl nuttx net_idle (some { sock_capable with s_conn := some conn2 })
              nuttx.F_SETFL 64).psock
            = (psock_vfcntl nuttx net_idle (some sock_capable) nuttx.F_SETFL 64).psock :=
  setfl_last_writer_wins nuttx net_idle sock_capable { s_flags := 0 } 0 64 1 rfl
    (by decide) (fun _ => rfl) (by decide)

end NetVfcntl
